import Mathlib

/-!
Verification of the s1panel telemetry sampling and template-rendering core.

This file embeds the two sensor implementations of the repository, the
generic command sensor (sensors/exec.js) and the service-manager sensor
(sensors/systemd.js), as executable Lean definitions, and proves the
specified properties about them.

Conventions of the embedding:
* JavaScript strings are Lean strings; character scans go through
  List Char.
* JavaScript objects used as string-keyed dictionaries are association
  lists of own properties, written and read with objSet and objGet.
* The monotonic millisecond clock (process.hrtime) is an explicit Nat
  argument called now.
* Asynchronous boundaries (exec callbacks, Promise.all) are fetched-data
  arguments: each sample step takes the value the external fetch would
  deliver, so one invocation of sample is one deterministic state
  transition.
* The JavaScript Date constructor used by the timestamp parser is an
  uninterpreted oracle argument of type String to Option Int, where none
  models an invalid date (NaN).
* All definitions are total: rendering and parsing never throw, matching
  the behaviour of the source, which encodes all failure in returned
  values.
-/

/-! ## Small JavaScript semantics helpers -/

/-- Opening brace character, kept abstract as a named constant. -/
def lbrace : Char := Char.ofNat 123

/-- Closing brace character. -/
def rbrace : Char := Char.ofNat 125

/-- Leading-whitespace removal on character lists. -/
def trimLeftL (l : List Char) : List Char := l.dropWhile Char.isWhitespace

/-- Trailing-whitespace removal on character lists. -/
def trimRightL (l : List Char) : List Char :=
  (l.reverse.dropWhile Char.isWhitespace).reverse

/-- Both-ends whitespace removal, the model of the trim method of
JavaScript strings (for the ASCII whitespace actually produced by the
data sources). -/
def trimL (l : List Char) : List Char := trimRightL (trimLeftL l)

/-- String-level trim. -/
def jsTrim (s : String) : String := String.mk (trimL s.toList)

/-- Value of a list of decimal digit characters. -/
def digitsToNat (ds : List Char) : Nat :=
  ds.foldl (fun n c => n * 10 + (c.toNat - 48)) 0

/-- Hexadecimal digit characters. -/
def isHexDigitChar (c : Char) : Bool :=
  c.isDigit || ('a' ≤ c && c ≤ 'f') || ('A' ≤ c && c ≤ 'F')

/-- Value of one hexadecimal digit character. -/
def hexVal (c : Char) : Nat :=
  if c.isDigit then c.toNat - 48
  else if 'a' ≤ c && c ≤ 'f' then c.toNat - 87
  else c.toNat - 55

/-- Value of a list of hexadecimal digit characters. -/
def hexDigitsToNat (ds : List Char) : Nat :=
  ds.foldl (fun n c => n * 16 + hexVal c) 0

/-- Model of the JavaScript parseInt applied to a token body with no
radix argument: the body contains no sign and no leading whitespace (it
was matched by a word pattern).  With a leading 0x or 0X the radix is
auto-detected as 16 and the following longest run of hexadecimal digits
is taken (an empty run is NaN, here none); otherwise the longest leading
run of decimal digits is taken, and an empty run is NaN. -/
def jsParseInt (s : String) : Option Nat :=
  let cs := s.toList
  if cs.take 2 = ['0', 'x'] ∨ cs.take 2 = ['0', 'X'] then
    let hs := (cs.drop 2).takeWhile isHexDigitChar
    if hs.isEmpty then none else some (hexDigitsToNat hs)
  else
    let ds := cs.takeWhile (fun c => c.isDigit)
    if ds.isEmpty then none else some (digitsToNat ds)

/-- Decimal digit characters of a natural number, with explicit fuel so
that the definition is structural and kernel-evaluable. -/
def natDigitsAux : Nat → Nat → List Char
  | 0, _ => []
  | fuel + 1, n =>
    if n < 10 then [Nat.digitChar n]
    else natDigitsAux fuel (n / 10) ++ [Nat.digitChar (n % 10)]

/-- Decimal rendering of a natural number, the model of JavaScript
number-to-string conversion for non-negative integers. -/
def natToString (n : Nat) : String := String.mk (natDigitsAux (n + 1) n)

/-- Decimal rendering of an integer. -/
def intToString (i : Int) : String :=
  if i < 0 then "-" ++ natToString i.natAbs else natToString i.toNat

/-- Model of the JavaScript expression o || d for an optional string o:
the default is used when the value is absent or empty (falsy). -/
def jsOrStr (o : Option String) (d : String) : String :=
  match o with
  | some s => if s = "" then d else s
  | none => d

/-- Own-property read of a string-keyed JavaScript object. -/
def objGet (obj : List (String × String)) (k : String) : Option String :=
  (obj.find? (fun p => p.1 = k)).map Prod.snd

/-- Own-property write of a string-keyed JavaScript object: an existing
key is overwritten in place, a new key is appended in insertion order. -/
def objSet (obj : List (String × String)) (k v : String) : List (String × String) :=
  if obj.any (fun p => p.1 = k) then
    obj.map (fun p => if p.1 = k then (k, v) else p)
  else obj ++ [(k, v)]

/-- Splitting on a single separator character, the model of the
JavaScript split method with a one-character separator: empty pieces are
kept, and the empty string splits into one empty piece. -/
def splitCharList (sep : Char) : List Char → List Char → List String
  | [], cur => [String.mk cur]
  | c :: cs, cur =>
    if c = sep then String.mk cur :: splitCharList sep cs []
    else splitCharList sep cs (cur ++ [c])

/-- String-level single-character split. -/
def jsSplitChar (s : String) (sep : Char) : List String := splitCharList sep s.toList []

/-- Prefix test on strings, the model of startsWith. -/
def jsStartsWith (s pfx : String) : Bool := s.toList.take pfx.toList.length == pfx.toList

/-- Character-count drop on strings, the model of substring from an
index. -/
def jsDropChars (s : String) (n : Nat) : String := String.mk (s.toList.drop n)

/-- JSON escaping of one character (quote and backslash; the data
handled by the sensors contains no control characters). -/
def jsonEscapeChar (c : Char) : String :=
  if c = '"' then "\\\"" else if c = '\\' then "\\\\" else String.singleton c

/-- JSON string literal. -/
def jsonQuote (s : String) : String :=
  "\"" ++ String.join (s.toList.map jsonEscapeChar) ++ "\""

/-- JSON array from already-serialized elements. -/
def jsonArray (elems : List String) : String :=
  "[" ++ String.intercalate "," elems ++ "]"

/-- JSON object from string-valued own properties in insertion order,
the model of JSON.stringify on a row object. -/
def jsonObject (obj : List (String × String)) : String :=
  "\x7b" ++
    String.intercalate "," (obj.map (fun p => jsonQuote p.1 ++ ":" ++ jsonQuote p.2)) ++
  "\x7d"

/-! ## Structured parser of the exec sensor (sensors/exec.js) -/

/-- Loop of parse_csv_line: walks the characters with the accumulated
fields, the current field and the inside-quotes flag. A double quote
toggles the flag and is itself dropped; the separator ends the current
field only outside quotes; fields are trimmed when pushed. -/
def csv_split_loop (sep : Char) : List Char → List String → List Char → Bool → List String
  | [], result, current, _ => result ++ [String.mk (trimL current)]
  | c :: cs, result, current, in_quotes =>
    if c = '"' then csv_split_loop sep cs result current (!in_quotes)
    else if c = sep ∧ in_quotes = false then
      csv_split_loop sep cs (result ++ [String.mk (trimL current)]) [] in_quotes
    else csv_split_loop sep cs result (current ++ [c]) in_quotes

/-- Quote-aware field splitter of the exec sensor. -/
def parse_csv_line (line : String) (sep : Char) : List String :=
  csv_split_loop sep line.toList [] [] false

/-- Builds one row object: values map positionally to header names,
missing trailing values default to the empty string, extra values are
dropped (the loop runs over the headers). -/
def build_row : List (String × String) → List String → List String → List (String × String)
  | obj, [], _ => obj
  | obj, h :: hs, vs => build_row (objSet obj h (vs.headD "")) hs (vs.drop 1)

/-- Parsed tabular state: header names, row objects, row count. -/
structure CsvTable where
  headers : List String
  rows : List (List (String × String))
  row_count : Nat
deriving Repr, DecidableEq

/-- Tabular parser of the exec sensor: first non-blank line is the
header, each further non-blank line becomes a row object. -/
def parse_csv_output (output : String) (sep : Char) : CsvTable :=
  let ls := (jsSplitChar (jsTrim output) '\n').filter (fun l => jsTrim l ≠ "")
  match ls with
  | [] => ⟨[], [], 0⟩
  | h :: rest =>
    let headers := parse_csv_line h sep
    let rows := rest.map (fun line => build_row [] headers (parse_csv_line line sep))
    ⟨headers, rows, rows.length⟩

/-- Parsed line-oriented state. -/
structure RawParsed where
  lines : List String
  line_count : Nat
deriving Repr, DecidableEq

/-- Line-oriented parser of the exec sensor: blank lines are discarded
and, when a positive bound is configured, only the last max_lines lines
are kept in order. -/
def parse_raw_output (output : String) (max_lines : Nat) : RawParsed :=
  let ls := (jsSplitChar (jsTrim output) '\n').filter (fun l => jsTrim l ≠ "")
  let res := if max_lines > 0 then ls.drop (ls.length - max_lines) else ls
  ⟨res, res.length⟩

/-! ## Template renderer: the model of format.replace with a global
token regex.  A token is an opening brace, one or more body characters,
and a closing brace; the scan is left to right, non-overlapping, a
failed match advances one character, and replacements are not
rescanned.  Fuel makes the recursion structural (one character is
consumed per step, so the length of the input is enough fuel). -/

/-- One body-character class per grammar: word characters and dot for
the tabular grammar. -/
def csvBodyChar (c : Char) : Bool := c.isAlphanum || c = '_' || c = '.'

/-- Word characters for the line-oriented grammar. -/
def wordBodyChar (c : Char) : Bool := c.isAlphanum || c = '_'

/-- Decimal digits for the aggregate grammar. -/
def digitBodyChar (c : Char) : Bool := c.isDigit

/-- Fueled token-replacement scan. -/
def replaceTokensAux (isBody : Char → Bool) (repl : String → String) :
    Nat → List Char → List Char
  | 0, cs => cs
  | _ + 1, [] => []
  | fuel + 1, c :: rest =>
    if c = lbrace ∧ rest.takeWhile isBody ≠ [] ∧
        (rest.drop (rest.takeWhile isBody).length).head? = some rbrace then
      (repl (String.mk (rest.takeWhile isBody))).toList ++
        replaceTokensAux isBody repl fuel (rest.drop (rest.takeWhile isBody).length).tail
    else
      c :: replaceTokensAux isBody repl fuel rest

/-- Token replacement over a whole character list. -/
def replaceTokens (isBody : Char → Bool) (repl : String → String) (cs : List Char) :
    List Char :=
  replaceTokensAux isBody repl cs.length cs

/-- String-level render. -/
def jsReplace (isBody : Char → Bool) (repl : String → String) (s : String) : String :=
  String.mk (replaceTokens isBody repl s.toList)

/-! ## Exec sensor state and sampling (sensors/exec.js) -/

/-- Result of one external command execution as delivered to the
sampling logic. -/
structure ExecResult where
  success : Bool
  exit_code : Int
  stdout : String
  stderr : String
deriving Repr, DecidableEq

/-- Outcome of the underlying child-process exec call: either a normal
completion, or an error carrying the optional exit code (none when the
process died without one), the captured streams and the error message. -/
inductive CmdOutcome where
  | ok (stdout stderr : String)
  | err (code : Option Int) (stdout stderr message : String)
deriving Repr, DecidableEq

/-- Effect of execute_command: the new module-level fault flag, whether
this call logged an error (only the first failure of a streak logs), and
the fulfilled result.  The fault flag lives at module scope in the
source, shared by every instance of the exec sensor. -/
structure CmdEffect where
  fault : Bool
  logged : Bool
  result : ExecResult
deriving Repr, DecidableEq

/-- Model of execute_command from sensors/exec.js. -/
def execute_command (fault : Bool) (o : CmdOutcome) : CmdEffect :=
  match o with
  | .ok out err => ⟨false, false, ⟨true, 0, out, err⟩⟩
  | .err code out err msg =>
      ⟨true, !fault, ⟨false, code.getD (-1), out, jsOrStr (some err) msg⟩⟩

/-- Per-instance private state of the exec sensor, the _private object
created by init. -/
structure ExecPriv where
  name : String
  command : String
  separator : Char
  timeout : Nat
  csv : Bool
  lines : Nat
  headers : List String
  rows : List (List (String × String))
  row_count : Nat
  raw_lines : List String
  line_count : Nat
  exit_code : Int
  last_success : Bool
  last_sampled : Nat
deriving Repr, DecidableEq

/-- Model of init from sensors/exec.js restricted to the private state
it creates (identity string and logging omitted). -/
def exec_init_priv (name command : String) (separator : Char) (timeout : Nat)
    (csv : Bool) (lines : Nat) : ExecPriv :=
  { name := name, command := command, separator := separator, timeout := timeout,
    csv := csv, lines := lines, headers := [], rows := [], row_count := 0,
    raw_lines := [], line_count := 0, exit_code := -1, last_success := false,
    last_sampled := 0 }

/-- Rate gate shared by both sensors: fetch when last_sampled is unset
(zero, which is falsy) or the elapsed monotonic time strictly exceeds
the rate. -/
def rate_gate (last_sampled now rate : Nat) : Bool :=
  last_sampled = 0 || ((now : Int) - (last_sampled : Int) > (rate : Int))

/-- Token resolution of the tabular grammar (the switch inside sample
for csv mode). -/
def execResolveCsv (p : ExecPriv) (key : String) : String :=
  if key = "success" then (if p.last_success then "true" else "false")
  else if key = "exit_code" then intToString p.exit_code
  else if key = "columns" then natToString p.headers.length
  else if key = "rows" then natToString p.row_count
  else if key = "headers" then String.intercalate "," p.headers
  else if key = "json" then jsonArray (p.rows.map jsonObject)
  else if '.' ∈ key.toList then
    let parts := jsSplitChar key '.'
    let col_key := String.intercalate "." (parts.drop 1)
    match jsParseInt (parts.headD "") with
    | some row_idx =>
      if row_idx < p.row_count then
        match objGet (p.rows.getD row_idx []) col_key with
        | some v => v
        | none => ""
      else ""
    | none => ""
  else
    match jsParseInt key with
    | some row_idx =>
      if row_idx < p.row_count then
        String.intercalate (String.singleton p.separator)
          (p.headers.map (fun h => (objGet (p.rows.getD row_idx []) h).getD ""))
      else ""
    | none => ""

/-- Token resolution of the line-oriented grammar (the switch inside
sample for raw mode). -/
def execResolveRaw (p : ExecPriv) (key : String) : String :=
  if key = "success" then (if p.last_success then "true" else "false")
  else if key = "exit_code" then intToString p.exit_code
  else if key = "lines" then natToString p.line_count
  else if key = "all" then String.intercalate "\n" p.raw_lines
  else if key = "json" then jsonArray (p.raw_lines.map jsonQuote)
  else
    match jsParseInt key with
    | some line_idx =>
      if line_idx < p.line_count then p.raw_lines.getD line_idx ""
      else ""
    | none => ""

/-- Full render of a format string against the current exec state. -/
def exec_render (p : ExecPriv) (format : String) : String :=
  if p.csv then jsReplace csvBodyChar (execResolveCsv p) format
  else jsReplace wordBodyChar (execResolveRaw p) format

/-- Application of a fetched result to the private state: the exit code
is always recorded; on success the parsed state is replaced and
last_success set; on failure only last_success is cleared, the cached
parsed state is kept. -/
def exec_apply (p : ExecPriv) (r : ExecResult) : ExecPriv :=
  let p1 := { p with exit_code := r.exit_code }
  if r.success then
    if p1.csv then
      let parsed := parse_csv_output r.stdout p1.separator
      { p1 with headers := parsed.headers, rows := parsed.rows,
                row_count := parsed.row_count, last_success := true }
    else
      let parsed := parse_raw_output r.stdout p1.lines
      { p1 with raw_lines := parsed.lines, line_count := parsed.line_count,
                last_success := true }
  else { p1 with last_success := false }

/-- Rendered sample value with its numeric range. -/
structure SampleResult where
  value : String
  min : Nat
  max : Nat
deriving Repr, DecidableEq

/-- Observable outcome of one exec sample invocation: the new private
state, the returned value, whether the gate decided to fetch, the new
module-level fault flag and whether an error line was logged. -/
structure ExecSampleOut where
  priv : ExecPriv
  result : SampleResult
  fetched : Bool
  fault : Bool
  logged : Bool
deriving Repr, DecidableEq

/-- Model of sample from sensors/exec.js: the gate is evaluated against
the monotonic clock, last_sampled is updated to now before the fetch
result is applied, the fetch runs only when the gate fired, and the
output is rendered from the resulting state. -/
def exec_sample (rate : Nat) (format : String) (p : ExecPriv) (now : Nat)
    (fault : Bool) (o : CmdOutcome) : ExecSampleOut :=
  if rate_gate p.last_sampled now rate then
    let pGate := { p with last_sampled := now }
    let eff := execute_command fault o
    let pNew := exec_apply pGate eff.result
    { priv := pNew,
      result := ⟨exec_render pNew format, 0,
                 if pNew.csv then pNew.headers.length else pNew.line_count⟩,
      fetched := true, fault := eff.fault, logged := eff.logged }
  else
    { priv := p,
      result := ⟨exec_render p format, 0,
                 if p.csv then p.headers.length else p.line_count⟩,
      fetched := false, fault := fault, logged := false }

/-- Module-level state of the exec sensor: the shared fault flag and the
private states of all live instances. -/
structure ExecModule where
  fault : Bool
  instances : List ExecPriv
deriving Repr, DecidableEq

/-- Observable outcome of a sample on one instance of the module. -/
structure ExecModuleOut where
  modl : ExecModule
  result : Option SampleResult
  logged : Bool
deriving Repr, DecidableEq

/-- Sampling instance i of the exec module: only that instance and the
shared fault flag are touched. -/
def exec_module_sample (m : ExecModule) (i rate now : Nat) (format : String)
    (o : CmdOutcome) : ExecModuleOut :=
  match m.instances.get? i with
  | none => ⟨m, none, false⟩
  | some p =>
    let st := exec_sample rate format p now m.fault o
    ⟨⟨st.fault, m.instances.set i st.priv⟩, some st.result, st.logged⟩

/-! ## Systemd sensor (sensors/systemd.js) -/

/-- Status labels lookup table. -/
def STATUS_LABELS (s : String) : Option String :=
  if s = "active" then some "running"
  else if s = "failed" then some "failed"
  else if s = "inactive" then some "stopped"
  else if s = "activating" then some "starting"
  else if s = "deactivating" then some "stopping"
  else if s = "reloading" then some "reloading"
  else if s = "unknown" then some "unknown"
  else none

/-- Status symbols lookup table. -/
def STATUS_SYMBOLS (s : String) : Option String :=
  if s = "active" then some "●"
  else if s = "failed" then some "✗"
  else if s = "inactive" then some "○"
  else if s = "activating" then some "◐"
  else if s = "deactivating" then some "◑"
  else if s = "reloading" then some "↻"
  else if s = "unknown" then some "?"
  else none

/-- Unit formatting applied once the elapsed seconds are known to be
non-negative: one largest applicable unit pair, or bare seconds. -/
def format_elapsed_parts (s : Nat) : String :=
  let days := s / 86400
  let hours := s % 86400 / 3600
  let minutes := s % 3600 / 60
  let seconds := s % 60
  if days > 0 then natToString days ++ "d " ++ natToString hours ++ "h"
  else if hours > 0 then natToString hours ++ "h " ++ natToString minutes ++ "m"
  else if minutes > 0 then natToString minutes ++ "m " ++ natToString seconds ++ "s"
  else natToString seconds ++ "s"

/-- Model of format_elapsed_time: a zero (unknown) timestamp and a
negative elapsed time both render as a dash; otherwise the elapsed
milliseconds are floored to seconds and formatted. -/
def format_elapsed_time (timestamp_ms now : Int) : String :=
  if timestamp_ms = 0 then "-"
  else
    let elapsed_sec := Int.fdiv (now - timestamp_ms) 1000
    if elapsed_sec < 0 then "-"
    else format_elapsed_parts elapsed_sec.toNat

/-- Model of parse_systemd_timestamp, parameterized by the JavaScript
Date constructor dp (none models an invalid date): empty or n/a input
yields epoch zero; when the input splits on spaces into at least three
tokens the second and third (date and time) are parsed first; on failure
the whole original string is parsed; on failure the result is zero. -/
def parse_systemd_timestamp (dp : String → Option Int) (s : String) : Int :=
  if s = "" ∨ s = "n/a" then 0
  else
    let parts := jsSplitChar s ' '
    let first :=
      if parts.length ≥ 3 then dp (String.intercalate " " ((parts.drop 1).take 2))
      else none
    match first with
    | some t => t
    | none =>
      match dp s with
      | some t => t
      | none => 0

/-- First index of a character in a string, the model of indexOf. -/
def jsIndexOf (s : String) (c : Char) : Option Nat :=
  s.toList.findIdx? (fun a => a = c)

/-- Model of parse_systemctl_show: each line is split at its first
equals sign (an equals sign at index zero or a line without one is
ignored), later duplicate keys overwrite earlier values. -/
def parse_systemctl_show (output : String) : List (String × String) :=
  (jsSplitChar output '\n').foldl
    (fun props line =>
      match jsIndexOf line '=' with
      | some i =>
        if i > 0 then
          objSet props (String.mk (line.toList.take i)) (String.mk (line.toList.drop (i + 1)))
        else props
      | none => props)
    []

/-- Normalized per-resource status record. -/
structure ServiceStatus where
  service : String
  display_name : String
  description : String
  status : String
  sub_state : String
  load_state : String
  result : String
  exec_main_status : String
  exec_main_code : String
  label : String
  symbol : String
  elapsed : String
  timestamp : Int
deriving Repr, DecidableEq

/-- JSON serialization of one status record in field creation order. -/
def jsonServiceStatus (r : ServiceStatus) : String :=
  "\x7b" ++ String.intercalate ","
    [jsonQuote "service" ++ ":" ++ jsonQuote r.service,
     jsonQuote "display_name" ++ ":" ++ jsonQuote r.display_name,
     jsonQuote "description" ++ ":" ++ jsonQuote r.description,
     jsonQuote "status" ++ ":" ++ jsonQuote r.status,
     jsonQuote "sub_state" ++ ":" ++ jsonQuote r.sub_state,
     jsonQuote "load_state" ++ ":" ++ jsonQuote r.load_state,
     jsonQuote "result" ++ ":" ++ jsonQuote r.result,
     jsonQuote "exec_main_status" ++ ":" ++ jsonQuote r.exec_main_status,
     jsonQuote "exec_main_code" ++ ":" ++ jsonQuote r.exec_main_code,
     jsonQuote "label" ++ ":" ++ jsonQuote r.label,
     jsonQuote "symbol" ++ ":" ++ jsonQuote r.symbol,
     jsonQuote "elapsed" ++ ":" ++ jsonQuote r.elapsed,
     jsonQuote "timestamp" ++ ":" ++ intToString r.timestamp] ++
  "\x7d"

/-- Model of get_service_status: the callback ignores the error
argument, reads the properties from whatever standard output was
captured, and always fulfills a fully defaulted record.  dp is the Date
oracle and now the wall-clock milliseconds used for elapsed display. -/
def get_service_status (dp : String → Option Int) (now : Int) (service : String)
    ( strip_prefix : Option String) (stdout : String) : ServiceStatus :=
  let props := parse_systemctl_show stdout
  let active_state := jsOrStr (objGet props "ActiveState") "unknown"
  let sub_state := jsOrStr (objGet props "SubState") ""
  let load_state := jsOrStr (objGet props "LoadState") ""
  let result := jsOrStr (objGet props "Result") ""
  let description := jsOrStr (objGet props "Description") service
  let exec_main_status := jsOrStr (objGet props "ExecMainStatus") ""
  let exec_main_code := jsOrStr (objGet props "ExecMainCode") ""
  let state_timestamp :=
    if active_state = "active" then jsOrStr (objGet props "ActiveEnterTimestamp") ""
    else if active_state = "failed" then
      jsOrStr (objGet props "InactiveEnterTimestamp")
        (jsOrStr (objGet props "StateChangeTimestamp") "")
    else if active_state = "inactive" then
      jsOrStr (objGet props "InactiveEnterTimestamp") ""
    else jsOrStr (objGet props "StateChangeTimestamp") ""
  let timestamp_ms := parse_systemd_timestamp dp state_timestamp
  let elapsed := format_elapsed_time timestamp_ms now
  let display_name :=
    match strip_prefix with
    | some sp =>
      if sp ≠ "" ∧ jsStartsWith service sp then
        let d := jsDropChars service sp.toList.length
        if jsStartsWith d "-" then jsDropChars d 1 else d
      else service
    | none => service
  { service := service, display_name := display_name, description := description,
    status := active_state, sub_state := sub_state, load_state := load_state,
    result := result, exec_main_status := exec_main_status,
    exec_main_code := exec_main_code,
    label := (STATUS_LABELS active_state).getD "unknown",
    symbol := (STATUS_SYMBOLS active_state).getD "?",
    elapsed := elapsed, timestamp := timestamp_ms }

/-- Model of get_all_services_status: one concurrent query per resource,
joined into the results in resource-list order; the standard output each
query captured is given by the oracle stdout_of. -/
def get_all_services_status (dp : String → Option Int) (now : Int)
    (stdout_of : String → String) (services : List String)
    ( strip_prefix : Option String) : List ServiceStatus :=
  services.map (fun s => get_service_status dp now s strip_prefix (stdout_of s))

/-- Aggregate token resolution of the systemd sensor by numeric index.
Indices 0 to 8 are the aggregate tokens; from index 10 on, resources are
addressed in blocks of 5 fields; every unmatched index falls through to
the string rendering of undefined. -/
def systemdResolveIdx (results : List ServiceStatus) (i : Nat) : String :=
  if i = 0 then jsonArray (results.map jsonServiceStatus)
  else if i = 1 then natToString results.length
  else if i = 2 then natToString (results.filter (fun r => r.status = "active")).length
  else if i = 3 then natToString (results.filter (fun r => r.status = "failed")).length
  else if i = 4 then natToString (results.filter (fun r => r.status = "inactive")).length
  else if i = 5 then
    String.intercalate "," (results.map (fun r => r.display_name ++ ":" ++ r.label))
  else if i = 6 then
    String.intercalate "," (results.map (fun r => r.display_name ++ ":" ++ r.elapsed))
  else if i = 7 then
    String.intercalate ", " (results.map (fun r => r.symbol ++ " " ++ r.display_name))
  else if i = 8 then
    let running := (results.filter (fun r => r.status = "active")).length
    let failed := (results.filter (fun r => r.status = "failed")).length
    let summary := natToString running ++ "/" ++ natToString results.length ++ " running"
    if failed > 0 then summary ++ ", " ++ natToString failed ++ " failed" else summary
  else if i ≥ 10 then
    let service_index := (i - 10) / 5
    let field_index := (i - 10) % 5
    match results.get? service_index with
    | some r =>
      if field_index = 0 then r.display_name
      else if field_index = 1 then r.status
      else if field_index = 2 then r.elapsed
      else if field_index = 3 then r.label
      else if field_index = 4 then r.symbol
      else "undefined"
    | none => "undefined"
  else "undefined"

/-- Aggregate token resolution from the matched digit body. -/
def systemdResolveKey (results : List ServiceStatus) (key : String) : String :=
  match jsParseInt key with
  | some i => systemdResolveIdx results i
  | none => "undefined"

/-- Full render of a format string against the aggregate state. -/
def systemd_render (results : List ServiceStatus) (format : String) : String :=
  jsReplace digitBodyChar (systemdResolveKey results) format

/-- Per-instance private state of the systemd sensor. -/
structure SystemdPriv where
  name : String
  services : List String
  strip_prefix : Option String
  status_cache : List ServiceStatus
  last_sampled : Nat
deriving Repr, DecidableEq

/-- Observable outcome of one systemd sample invocation. -/
structure SystemdSampleOut where
  priv : SystemdPriv
  result : SampleResult
  fetched : Bool
deriving Repr, DecidableEq

/-- Model of sample from sensors/systemd.js: same rate gate as the exec
sensor; when the gate fires the joined per-resource results (the fetch
argument) replace the cache unconditionally, since the aggregator always
fulfills; rendering reads the cache. -/
def systemd_sample (rate : Nat) (format : String) (p : SystemdPriv) (now : Nat)
    (fetch : List ServiceStatus) : SystemdSampleOut :=
  if rate_gate p.last_sampled now rate then
    let pNew := { p with last_sampled := now, status_cache := fetch }
    { priv := pNew,
      result := ⟨systemd_render pNew.status_cache format, 0, pNew.status_cache.length⟩,
      fetched := true }
  else
    { priv := p,
      result := ⟨systemd_render p.status_cache format, 0, p.status_cache.length⟩,
      fetched := false }

/-! ## Concrete example data used by the witnesses and counterexamples -/

/-- Builder for a concrete status record in examples. -/
def mkStatusEx (n st lb sy : String) : ServiceStatus :=
  { service := n, display_name := n, description := n, status := st, sub_state := "",
    load_state := "", result := "", exec_main_status := "", exec_main_code := "",
    label := lb, symbol := sy, elapsed := "1m 2s", timestamp := 0 }

/-- Five monitored resources: three active, one failed, one inactive. -/
def ex5Services : List ServiceStatus :=
  [mkStatusEx "a" "active" "running" "●", mkStatusEx "b" "active" "running" "●",
   mkStatusEx "c" "failed" "failed" "✗", mkStatusEx "d" "active" "running" "●",
   mkStatusEx "e" "inactive" "stopped" "○"]

/-- A concrete exec state with one parsed row, a prior success, and a
nonzero sample timestamp. -/
def exPrivCsv : ExecPriv :=
  { exec_init_priv "t" "cmd" ';' 5000 true 100 with
    headers := ["a", "b", "c"],
    rows := [build_row [] ["a", "b", "c"] ["1", "2", "3"]],
    row_count := 1, exit_code := 0, last_success := true, last_sampled := 5 }

/-- A concrete raw-mode exec state with three cached lines. -/
def exPrivRaw : ExecPriv :=
  { exec_init_priv "r" "cmd" ';' 5000 false 100 with
    raw_lines := ["l0", "l1", "l2"], line_count := 3,
    exit_code := 0, last_success := true, last_sampled := 5 }

/-- A concrete failing command outcome. -/
def exErrOutcome : CmdOutcome := CmdOutcome.err (some 2) "" "boom" "failed"

/-- A concrete Date oracle: recognizes exactly one date-time string and
one whole-timestamp string. -/
def exDateOracle : String → Option Int := fun s =>
  if s = "2025-12-02 22:14:21" then some 1764717261000
  else if s = "June 1 2020" then some 1590969600000
  else none

/-! ## Lemmas about decimal digits and number rendering -/

theorem isDigit_digitChar (d : Nat) (h : d < 10) : (Nat.digitChar d).isDigit = true := by
  interval_cases d <;> decide

theorem toNat_digitChar (d : Nat) (h : d < 10) : (Nat.digitChar d).toNat = 48 + d := by
  interval_cases d <;> decide

theorem digitsToNat_append (l : List Char) (c : Char) :
    digitsToNat (l ++ [c]) = 10 * digitsToNat l + (c.toNat - 48) := by
  simp [digitsToNat, List.foldl_append, Nat.mul_comm]

theorem natDigitsAux_spec (fuel : Nat) :
    ∀ n : Nat, n < fuel →
      digitsToNat (natDigitsAux fuel n) = n ∧
      (∀ c ∈ natDigitsAux fuel n, c.isDigit = true) ∧
      natDigitsAux fuel n ≠ [] := by
  induction fuel with
  | zero => intro n h; omega
  | succ f ih =>
    intro n h
    by_cases h10 : n < 10
    · refine ⟨?_, ?_, ?_⟩ <;> simp [natDigitsAux, h10, digitsToNat]
      · have := toNat_digitChar n h10
        omega
      · exact isDigit_digitChar n h10
    · have hdiv : n / 10 < f := by omega
      obtain ⟨ih1, ih2, ih3⟩ := ih (n / 10) hdiv
      refine ⟨?_, ?_, ?_⟩
      · simp only [natDigitsAux, if_neg h10]
        rw [digitsToNat_append, ih1, toNat_digitChar (n % 10) (by omega)]
        omega
      · simp only [natDigitsAux, if_neg h10]
        intro c hc
        rcases List.mem_append.1 hc with h1 | h1
        · exact ih2 c h1
        · simp at h1
          subst h1
          exact isDigit_digitChar (n % 10) (by omega)
      · simp [natDigitsAux, if_neg h10]

theorem natToString_digits : ∀ c ∈ (natToString n).toList, c.isDigit = true := by
  intro c hc
  exact (natDigitsAux_spec (n + 1) n (by omega)).2.1 c hc

theorem takeWhile_eq_self_of_all {p : Char → Bool} :
    ∀ l : List Char, (∀ c ∈ l, p c = true) → l.takeWhile p = l := by
  intro l h
  induction l with
  | nil => rfl
  | cons a t ih =>
    rw [List.takeWhile_cons, h a (by simp)]
    simp [ih (fun c hc => h c (by simp [hc]))]

theorem jsParseInt_natToString (n : Nat) : jsParseInt (natToString n) = some n := by
  obtain ⟨h1, h2, h3⟩ := natDigitsAux_spec (n + 1) n (by omega)
  have htl : (natToString n).toList = natDigitsAux (n + 1) n := rfl
  have hpre : ¬((natToString n).toList.take 2 = ['0', 'x'] ∨
      (natToString n).toList.take 2 = ['0', 'X']) := by
    intro hor
    have hx : ∀ c : Char, c ∈ (natToString n).toList.take 2 → c.isDigit = true := by
      intro c hc
      exact natToString_digits c (List.take_subset 2 _ hc)
    rcases hor with h | h
    · have := hx 'x' (by rw [h]; simp)
      simp at this
    · have := hx 'X' (by rw [h]; simp)
      simp at this
  simp only [jsParseInt]
  rw [if_neg hpre]
  simp only [htl]
  rw [takeWhile_eq_self_of_all _ h2]
  simp [List.isEmpty_iff, h3, h1, natToString]

theorem natToString_no_dot : '.' ∉ (natToString n).toList := by
  intro hmem
  have := natToString_digits '.' hmem
  simp at this

/-! ## Lemmas about trimming -/

theorem head?_dropWhile_not (p : Char → Bool) :
    ∀ l : List Char, ∀ c, (l.dropWhile p).head? = some c → p c = false := by
  intro l
  induction l with
  | nil => intro c hc; simp at hc
  | cons a t ih =>
    intro c hc
    by_cases hp : p a
    · rw [List.dropWhile_cons_of_pos hp] at hc
      exact ih c hc
    · rw [List.dropWhile_cons_of_neg hp] at hc
      simp at hc
      subst hc
      simpa using hp

theorem dropWhile_exists_prefix (p : Char → Bool) :
    ∀ l : List Char, ∃ t, t ++ l.dropWhile p = l := by
  intro l
  induction l with
  | nil => exact ⟨[], rfl⟩
  | cons a t ih =>
    by_cases hp : p a
    · obtain ⟨u, hu⟩ := ih
      exact ⟨a :: u, by simp [List.dropWhile_cons_of_pos hp, hu]⟩
    · exact ⟨[], by simp [List.dropWhile_cons_of_neg hp]⟩

theorem trimRightL_exists_suffix (m : List Char) : ∃ t, trimRightL m ++ t = m := by
  obtain ⟨u, hu⟩ := dropWhile_exists_prefix Char.isWhitespace m.reverse
  refine ⟨u.reverse, ?_⟩
  have := congrArg List.reverse hu
  simpa [trimRightL, List.reverse_append] using this

theorem head?_trimRightL (m : List Char)
    (h : ∀ c, m.head? = some c → c.isWhitespace = false) :
    ∀ c, (trimRightL m).head? = some c → c.isWhitespace = false := by
  intro c hc
  obtain ⟨t, ht⟩ := trimRightL_exists_suffix m
  cases htm : trimRightL m with
  | nil => rw [htm] at hc; simp at hc
  | cons x xs =>
    rw [htm] at hc
    simp at hc
    subst hc
    apply h
    rw [← ht, htm]
    rfl

theorem head?_trimL (l : List Char) :
    ∀ c, (trimL l).head? = some c → c.isWhitespace = false := by
  intro c hc
  exact head?_trimRightL (trimLeftL l) (head?_dropWhile_not Char.isWhitespace l) c hc

theorem getLast?_trimL (l : List Char) :
    ∀ c, (trimL l).getLast? = some c → c.isWhitespace = false := by
  intro c hc
  have : (trimL l).getLast? = ((trimLeftL l).reverse.dropWhile Char.isWhitespace).head? := by
    simp [trimL, trimRightL, List.getLast?_reverse]
  rw [this] at hc
  exact head?_dropWhile_not Char.isWhitespace (trimLeftL l).reverse c hc

theorem mem_trimL (l : List Char) (c : Char) (h : c ∈ trimL l) : c ∈ l := by
  have h1 : c ∈ (trimLeftL l).reverse.dropWhile Char.isWhitespace := by
    simpa [trimL, trimRightL] using h
  have h2 : c ∈ (trimLeftL l).reverse := (List.dropWhile_sublist _).mem h1
  have h3 : c ∈ trimLeftL l := by simpa using h2
  exact (List.dropWhile_sublist _).mem h3

/-! ## Well-formedness of split fields (for the quote-aware splitter) -/

/-- A well-formed output field of the splitter: it contains no double
quote and carries no leading or trailing whitespace. -/
def FieldOk (f : String) : Prop :=
  '"' ∉ f.toList ∧
  (∀ c, f.toList.head? = some c → c.isWhitespace = false) ∧
  (∀ c, f.toList.getLast? = some c → c.isWhitespace = false)

theorem FieldOk_trim (l : List Char) (h : '"' ∉ l) : FieldOk (String.mk (trimL l)) := by
  have htl : (String.mk (trimL l)).toList = trimL l := rfl
  refine ⟨?_, ?_, ?_⟩
  · rw [htl]
    intro hmem
    exact h (mem_trimL l '"' hmem)
  · rw [htl]
    exact head?_trimL l
  · rw [htl]
    exact getLast?_trimL l

theorem csv_split_loop_fields (sep : Char) :
    ∀ (cs : List Char) (result : List String) (current : List Char) (q : Bool),
      (∀ f ∈ result, FieldOk f) → '"' ∉ current →
      ∀ f ∈ csv_split_loop sep cs result current q, FieldOk f := by
  intro cs
  induction cs with
  | nil =>
    intro result current q hres hcur f hf
    simp only [csv_split_loop] at hf
    rcases List.mem_append.1 hf with h | h
    · exact hres f h
    · simp at h
      subst h
      exact FieldOk_trim current hcur
  | cons c t ih =>
    intro result current q hres hcur f hf
    simp only [csv_split_loop] at hf
    by_cases hq : c = '"'
    · rw [if_pos hq] at hf
      exact ih result current (!q) hres hcur f hf
    · rw [if_neg hq] at hf
      by_cases hsep : c = sep ∧ q = false
      · rw [if_pos hsep] at hf
        refine ih _ [] q ?_ (by simp) f hf
        intro g hg
        rcases List.mem_append.1 hg with h | h
        · exact hres g h
        · simp at h
          subst h
          exact FieldOk_trim current hcur
      · rw [if_neg hsep] at hf
        refine ih result (current ++ [c]) q hres ?_ f hf
        intro hmem
        rcases List.mem_append.1 hmem with h | h
        · exact hcur h
        · simp at h
          exact hq h.symm

/-! ## Lemmas about the token-replacement scan -/

theorem replaceTokensAux_succ_cons (isBody : Char → Bool) (repl : String → String)
    (fuel : Nat) (c : Char) (rest : List Char) :
    replaceTokensAux isBody repl (fuel + 1) (c :: rest) =
      if c = lbrace ∧ rest.takeWhile isBody ≠ [] ∧
          (rest.drop (rest.takeWhile isBody).length).head? = some rbrace then
        (repl (String.mk (rest.takeWhile isBody))).toList ++
          replaceTokensAux isBody repl fuel (rest.drop (rest.takeWhile isBody).length).tail
      else
        c :: replaceTokensAux isBody repl fuel rest := rfl

theorem replaceTokensAux_fuel (isBody : Char → Bool) (repl : String → String) :
    ∀ (f1 : Nat) (f2 : Nat) (cs : List Char), cs.length ≤ f1 → cs.length ≤ f2 →
      replaceTokensAux isBody repl f1 cs = replaceTokensAux isBody repl f2 cs := by
  intro f1
  induction f1 with
  | zero =>
    intro f2 cs h1 h2
    have : cs = [] := by
      cases cs with
      | nil => rfl
      | cons a t => simp at h1
    subst this
    cases f2 <;> rfl
  | succ f ih =>
    intro f2 cs h1 h2
    cases f2 with
    | zero =>
      have : cs = [] := by
        cases cs with
        | nil => rfl
        | cons a t => simp at h2
      subst this
      rfl
    | succ g =>
      cases cs with
      | nil => rfl
      | cons c rest =>
        simp only [replaceTokensAux]
        have hlrest : rest.length ≤ f := by simpa using h1
        have hlrest2 : rest.length ≤ g := by simpa using h2
        by_cases hcond : c = lbrace ∧ rest.takeWhile isBody ≠ [] ∧
            (rest.drop (rest.takeWhile isBody).length).head? = some rbrace
        · rw [if_pos hcond, if_pos hcond]
          have hd : ((rest.drop (rest.takeWhile isBody).length)).length =
              rest.length - (rest.takeWhile isBody).length :=
            List.length_drop _ _
          have ht : ((rest.drop (rest.takeWhile isBody).length).tail).length =
              ((rest.drop (rest.takeWhile isBody).length)).length - 1 :=
            List.length_tail _
          rw [ih g ((rest.drop (rest.takeWhile isBody).length).tail) (by omega) (by omega)]
        · rw [if_neg hcond, if_neg hcond]
          rw [ih g rest hlrest hlrest2]

theorem replaceTokensAux_no_lbrace (isBody : Char → Bool) (repl : String → String) :
    ∀ (fuel : Nat) (cs : List Char), cs.length ≤ fuel → (∀ c ∈ cs, c ≠ lbrace) →
      replaceTokensAux isBody repl fuel cs = cs := by
  intro fuel
  induction fuel with
  | zero => intro cs h1 _; rfl
  | succ f ih =>
    intro cs h1 h2
    cases cs with
    | nil => rfl
    | cons c rest =>
      simp only [replaceTokensAux]
      have hc : ¬(c = lbrace) := h2 c (by simp)
      rw [if_neg (by tauto)]
      rw [ih rest (by simpa using h1) (fun d hd => h2 d (by simp [hd]))]

theorem replaceTokens_no_lbrace (isBody : Char → Bool) (repl : String → String)
    (cs : List Char) (h : ∀ c ∈ cs, c ≠ lbrace) :
    replaceTokens isBody repl cs = cs :=
  replaceTokensAux_no_lbrace isBody repl cs.length cs (le_refl _) h

theorem takeWhile_all_append (p : Char → Bool) :
    ∀ (body : List Char) (x : Char) (t : List Char),
      (∀ c ∈ body, p c = true) → p x = false →
      (body ++ x :: t).takeWhile p = body := by
  intro body
  induction body with
  | nil => intro x t _ hx; simpa [List.takeWhile_cons] using hx
  | cons a b ih =>
    intro x t hall hx
    have ha : p a = true := hall a (by simp)
    simp only [List.cons_append, List.takeWhile_cons, ha]
    simp [ih x t (fun c hc => hall c (by simp [hc])) hx]

theorem replaceTokensAux_token (isBody : Char → Bool) (repl : String → String)
    (hrb : isBody rbrace = false) :
    ∀ (pre : List Char) (fuel : Nat) (body post : List Char),
      (∀ c ∈ pre, c ≠ lbrace) → body ≠ [] → (∀ c ∈ body, isBody c = true) →
      (pre ++ lbrace :: (body ++ rbrace :: post)).length ≤ fuel →
      replaceTokensAux isBody repl fuel (pre ++ lbrace :: (body ++ rbrace :: post)) =
        pre ++ (repl (String.mk body)).toList ++ replaceTokens isBody repl post := by
  intro pre
  induction pre with
  | nil =>
    intro fuel body post _ hb hbody hfuel
    cases fuel with
    | zero => simp at hfuel
    | succ f =>
      simp only [List.nil_append] at hfuel ⊢
      have htw : (body ++ rbrace :: post).takeWhile isBody = body :=
        takeWhile_all_append isBody body rbrace post hbody hrb
      have hdrop : (body ++ rbrace :: post).drop body.length = rbrace :: post := by
        have := List.drop_left body (rbrace :: post)
        simpa using this
      rw [replaceTokensAux_succ_cons, htw, hdrop]
      rw [if_pos ⟨rfl, hb, rfl⟩]
      simp only [List.tail_cons]
      congr 1
      apply replaceTokensAux_fuel
      · simp at hfuel
        omega
      · exact le_refl _
  | cons c pre2 ih =>
    intro fuel body post hpre hb hbody hfuel
    cases fuel with
    | zero => simp at hfuel
    | succ f =>
      simp only [List.cons_append] at hfuel ⊢
      simp only [replaceTokensAux]
      have hc : ¬(c = lbrace) := hpre c (by simp)
      rw [if_neg (by tauto)]
      rw [ih f body post (fun d hd => hpre d (by simp [hd])) hb hbody (by simpa using hfuel)]

theorem replaceTokens_splice (isBody : Char → Bool) (repl : String → String)
    (hrb : isBody rbrace = false) (pre body post : List Char)
    (hpre : ∀ c ∈ pre, c ≠ lbrace) (hb : body ≠ [])
    (hbody : ∀ c ∈ body, isBody c = true) :
    replaceTokens isBody repl (pre ++ lbrace :: (body ++ rbrace :: post)) =
      pre ++ (repl (String.mk body)).toList ++ replaceTokens isBody repl post :=
  replaceTokensAux_token isBody repl hrb pre _ body post hpre hb hbody (le_refl _)

/-! ## Lemmas about token resolution -/

theorem ne_of_jsParseInt_some {key : String} {n : Nat} (hp : jsParseInt key = some n)
    (kw : String) (hkw : jsParseInt kw = none) : key ≠ kw := by
  intro h
  subst h
  rw [hkw] at hp
  exact Option.noConfusion hp

theorem execResolveCsv_numeric (p : ExecPriv) (key : String) (n : Nat)
    (hdot : '.' ∉ key.toList) (hp : jsParseInt key = some n) :
    execResolveCsv p key =
      if n < p.row_count then
        String.intercalate (String.singleton p.separator)
          (p.headers.map (fun h => (objGet (p.rows.getD n []) h).getD ""))
      else "" := by
  have h1 : key ≠ "success" := ne_of_jsParseInt_some hp _ (by decide)
  have h2 : key ≠ "exit_code" := ne_of_jsParseInt_some hp _ (by decide)
  have h3 : key ≠ "columns" := ne_of_jsParseInt_some hp _ (by decide)
  have h4 : key ≠ "rows" := ne_of_jsParseInt_some hp _ (by decide)
  have h5 : key ≠ "headers" := ne_of_jsParseInt_some hp _ (by decide)
  have h6 : key ≠ "json" := ne_of_jsParseInt_some hp _ (by decide)
  rw [execResolveCsv, if_neg h1, if_neg h2, if_neg h3, if_neg h4, if_neg h5, if_neg h6,
      if_neg hdot, hp]

theorem execResolveCsv_unresolved (p : ExecPriv) (key : String)
    (h1 : key ≠ "success") (h2 : key ≠ "exit_code") (h3 : key ≠ "columns")
    (h4 : key ≠ "rows") (h5 : key ≠ "headers") (h6 : key ≠ "json")
    (hdot : '.' ∉ key.toList) (hp : jsParseInt key = none) :
    execResolveCsv p key = "" := by
  rw [execResolveCsv, if_neg h1, if_neg h2, if_neg h3, if_neg h4, if_neg h5, if_neg h6,
      if_neg hdot, hp]

theorem execResolveRaw_numeric (p : ExecPriv) (key : String) (n : Nat)
    (hp : jsParseInt key = some n) :
    execResolveRaw p key =
      (if n < p.line_count then p.raw_lines.getD n "" else "") := by
  have h1 : key ≠ "success" := ne_of_jsParseInt_some hp _ (by decide)
  have h2 : key ≠ "exit_code" := ne_of_jsParseInt_some hp _ (by decide)
  have h3 : key ≠ "lines" := ne_of_jsParseInt_some hp _ (by decide)
  have h4 : key ≠ "all" := ne_of_jsParseInt_some hp _ (by decide)
  have h5 : key ≠ "json" := ne_of_jsParseInt_some hp _ (by decide)
  rw [execResolveRaw, if_neg h1, if_neg h2, if_neg h3, if_neg h4, if_neg h5, hp]

theorem execResolveRaw_unresolved (p : ExecPriv) (key : String)
    (h1 : key ≠ "success") (h2 : key ≠ "exit_code") (h3 : key ≠ "lines")
    (h4 : key ≠ "all") (h5 : key ≠ "json") (hp : jsParseInt key = none) :
    execResolveRaw p key = "" := by
  rw [execResolveRaw, if_neg h1, if_neg h2, if_neg h3, if_neg h4, if_neg h5, hp]

theorem execResolveCsv_congr (p q : ExecPriv)
    (e1 : q.headers = p.headers) (e2 : q.rows = p.rows) (e3 : q.row_count = p.row_count)
    (e4 : q.separator = p.separator) (key : String)
    (hk1 : key ≠ "success") (hk2 : key ≠ "exit_code") :
    execResolveCsv q key = execResolveCsv p key := by
  rw [execResolveCsv, execResolveCsv, if_neg hk1, if_neg hk1, if_neg hk2, if_neg hk2,
      e1, e2, e3, e4]

theorem execResolveRaw_congr (p q : ExecPriv)
    (e1 : q.raw_lines = p.raw_lines) (e2 : q.line_count = p.line_count) (key : String)
    (hk1 : key ≠ "success") (hk2 : key ≠ "exit_code") :
    execResolveRaw q key = execResolveRaw p key := by
  rw [execResolveRaw, execResolveRaw, if_neg hk1, if_neg hk1, if_neg hk2, if_neg hk2,
      e1, e2]

theorem systemdResolveIdx_high (results : List ServiceStatus) (i : Nat) (h : 10 ≤ i) :
    systemdResolveIdx results i =
      match results.get? ((i - 10) / 5) with
      | some r =>
        if (i - 10) % 5 = 0 then r.display_name
        else if (i - 10) % 5 = 1 then r.status
        else if (i - 10) % 5 = 2 then r.elapsed
        else if (i - 10) % 5 = 3 then r.label
        else if (i - 10) % 5 = 4 then r.symbol
        else "undefined"
      | none => "undefined" := by
  have e0 : i ≠ 0 := by omega
  have e1 : i ≠ 1 := by omega
  have e2 : i ≠ 2 := by omega
  have e3 : i ≠ 3 := by omega
  have e4 : i ≠ 4 := by omega
  have e5 : i ≠ 5 := by omega
  have e6 : i ≠ 6 := by omega
  have e7 : i ≠ 7 := by omega
  have e8 : i ≠ 8 := by omega
  simp [systemdResolveIdx, e0, e1, e2, e3, e4, e5, e6, e7, e8, h]

theorem rate_gate_iff (l n r : Nat) :
    rate_gate l n r = true ↔ (l = 0 ∨ (n : Int) - (l : Int) > (r : Int)) := by
  simp [rate_gate]

theorem fdiv_neg_of_neg (a : Int) (h : a < 0) : Int.fdiv a 1000 < 0 := by
  match a, h with
  | Int.negSucc m, _ =>
    have : Int.fdiv (Int.negSucc m) 1000 = Int.negSucc (m / 1000) := rfl
    rw [this]
    exact Int.negSucc_lt_zero _

/-! ## Frame lemmas for the sample step -/

theorem exec_apply_frame (p : ExecPriv) (r : ExecResult) :
    (exec_apply p r).last_sampled = p.last_sampled ∧
    (exec_apply p r).csv = p.csv ∧
    (exec_apply p r).separator = p.separator ∧
    (exec_apply p r).lines = p.lines := by
  unfold exec_apply
  by_cases hs : r.success <;> by_cases hc : p.csv <;> simp [hs, hc]

theorem exec_apply_fail (p : ExecPriv) (r : ExecResult) (h : r.success = false) :
    exec_apply p r = { p with exit_code := r.exit_code, last_success := false } := by
  unfold exec_apply
  rw [if_neg (by simp [h])]

/-! ## Claims -/

/-- C5: the tabular field splitter treats a double quote as toggling an
inside-field region in which the separator is literal, removes the quote
characters themselves, and trims each field after splitting; splitting
the line x,"a,b",y with separator comma yields exactly the fields
x and a,b and y.  The general conjunct states quote removal and
trimming for every input line and separator: no output field contains a
double quote or keeps leading or trailing whitespace. -/
theorem C5_quote_aware_split :
    parse_csv_line "x,\"a,b\",y" ',' = ["x", "a,b", "y"] ∧
    (∀ (line : String) (sep : Char), ∀ f ∈ parse_csv_line line sep,
      '"' ∉ f.toList ∧
      (∀ c, f.toList.head? = some c → c.isWhitespace = false) ∧
      (∀ c, f.toList.getLast? = some c → c.isWhitespace = false)) := by
  constructor
  · decide
  · intro line sep f hf
    exact csv_split_loop_fields sep line.toList [] [] false (by simp) (by simp) f hf

/-- Witness for C5: the middle field of the concrete example satisfies
the quote-removal conjunct. -/
theorem C5_witness : '"' ∉ ("a,b" : String).toList :=
  (C5_quote_aware_split.2 "x,\"a,b\",y" ',' "a,b" (by decide)).1

/-- C10 counterexample: parseInt with no radix auto-detects the 0x
hexadecimal prefix, so the token body 0x is NaN: with row 0 and line 0
in range, the token 0x renders the empty string in both exec grammars
while the bare token 0 renders the row (or line), refuting the claim
that the index is always taken from the leading digits. -/
theorem C10_counterexample :
    execResolveCsv exPrivCsv "0x" = "" ∧
    execResolveCsv exPrivCsv (natToString 0) = "1;2;3" ∧
    execResolveCsv exPrivCsv "0x" ≠ execResolveCsv exPrivCsv (natToString 0) ∧
    execResolveRaw exPrivRaw "0x" = "" ∧
    execResolveRaw exPrivRaw (natToString 0) = "l0" ∧
    execResolveRaw exPrivRaw "0x" ≠ execResolveRaw exPrivRaw (natToString 0) := by
  refine ⟨?_, ?_, ?_, ?_, ?_, ?_⟩ <;> decide

/-- C10 (amended): in the tabular and line-oriented grammars, a token
body of digits followed by trailing word characters that does not begin
with the hexadecimal auto-radix prefix (0x or 0X) takes its numeric
index from the leading decimal digits, so it renders the same row or
line as the bare numeric token for that index, whenever the index is in
range; a body beginning with the hexadecimal prefix is instead parsed in
base 16 by parseInt, so 0x alone is NaN and renders the empty string,
and 0x12 parses as 18. -/
theorem C10_digit_prefix_tokens (p q r0 r1 : ExecPriv) (key key2 : String)
    (hx1 : key.toList.take 2 ≠ ['0', 'x']) (hx2 : key.toList.take 2 ≠ ['0', 'X'])
    (hdot : '.' ∉ key.toList)
    (hlead : key.toList.takeWhile Char.isDigit ≠ [])
    (hn : digitsToNat (key.toList.takeWhile Char.isDigit) < p.row_count)
    (hy1 : key2.toList.take 2 ≠ ['0', 'x']) (hy2 : key2.toList.take 2 ≠ ['0', 'X'])
    (hlead2 : key2.toList.takeWhile Char.isDigit ≠ [])
    (hn2 : digitsToNat (key2.toList.takeWhile Char.isDigit) < q.line_count) :
    execResolveCsv p key =
      execResolveCsv p (natToString (digitsToNat (key.toList.takeWhile Char.isDigit))) ∧
    execResolveRaw q key2 =
      execResolveRaw q (natToString (digitsToNat (key2.toList.takeWhile Char.isDigit))) ∧
    jsParseInt "0x" = none ∧
    execResolveCsv r0 "0x" = "" ∧
    execResolveRaw r1 "0x" = "" ∧
    jsParseInt "0x12" = some 18 := by
  have hp : jsParseInt key = some (digitsToNat (key.toList.takeWhile Char.isDigit)) := by
    simp only [jsParseInt]
    rw [if_neg (by tauto), if_neg (by simpa [List.isEmpty_iff] using hlead)]
  have hp2 : jsParseInt key2 = some (digitsToNat (key2.toList.takeWhile Char.isDigit)) := by
    simp only [jsParseInt]
    rw [if_neg (by tauto), if_neg (by simpa [List.isEmpty_iff] using hlead2)]
  refine ⟨?_, ?_, by decide, ?_, ?_, by decide⟩
  · rw [execResolveCsv_numeric p key _ hdot hp,
        execResolveCsv_numeric p (natToString _) _ natToString_no_dot (jsParseInt_natToString _)]
  · rw [execResolveRaw_numeric q key2 _ hp2,
        execResolveRaw_numeric q (natToString _) _ (jsParseInt_natToString _)]
  · exact execResolveCsv_unresolved r0 "0x" (by decide) (by decide) (by decide) (by decide)
      (by decide) (by decide) (by decide) (by decide)
  · exact execResolveRaw_unresolved r1 "0x" (by decide) (by decide) (by decide) (by decide)
      (by decide) (by decide)

/-- Witness for C10: the body 0y addresses row 0 of a one-row table and
2x addresses line 2 of a three-line cache, like the bare tokens 0 and 2;
the hex-prefixed body 0x renders empty against both concrete states. -/
theorem C10_witness :
    execResolveCsv exPrivCsv "0y" =
      execResolveCsv exPrivCsv
        (natToString (digitsToNat (("0y" : String).toList.takeWhile Char.isDigit))) ∧
    execResolveRaw exPrivRaw "2x" =
      execResolveRaw exPrivRaw
        (natToString (digitsToNat (("2x" : String).toList.takeWhile Char.isDigit))) ∧
    jsParseInt "0x" = none ∧
    execResolveCsv exPrivCsv "0x" = "" ∧
    execResolveRaw exPrivRaw "0x" = "" ∧
    jsParseInt "0x12" = some 18 :=
  C10_digit_prefix_tokens exPrivCsv exPrivRaw exPrivCsv exPrivRaw "0y" "2x"
    (by decide) (by decide) (by decide) (by decide) (by decide) (by decide)
    (by decide) (by decide) (by decide)

/-- C8: timestamp parsing follows exactly this fallback order and never
raises (the model is a total function): empty or n/a input yields zero;
when the string splits on spaces into at least 3 tokens, the weekday
token is dropped and the date and time tokens are parsed; if that fails
the whole original string is parsed; if that also fails the result is
epoch zero. -/
theorem C8_timestamp_fallback (dp : String → Option Int) (s1 s2 s3 : String) (t1 t2 : Int)
    (h1a : s1 ≠ "") (h1b : s1 ≠ "n/a")
    (h1len : (jsSplitChar s1 ' ').length ≥ 3)
    (h1dp : dp (String.intercalate " " (((jsSplitChar s1 ' ').drop 1).take 2)) = some t1)
    (h2a : s2 ≠ "") (h2b : s2 ≠ "n/a")
    (h2fail : (jsSplitChar s2 ' ').length ≥ 3 →
      dp (String.intercalate " " (((jsSplitChar s2 ' ').drop 1).take 2)) = none)
    (h2dp : dp s2 = some t2)
    (h3a : s3 ≠ "") (h3b : s3 ≠ "n/a")
    (h3fail : (jsSplitChar s3 ' ').length ≥ 3 →
      dp (String.intercalate " " (((jsSplitChar s3 ' ').drop 1).take 2)) = none)
    (h3dp : dp s3 = none) :
    parse_systemd_timestamp dp "" = 0 ∧
    parse_systemd_timestamp dp "n/a" = 0 ∧
    parse_systemd_timestamp dp s1 = t1 ∧
    parse_systemd_timestamp dp s2 = t2 ∧
    parse_systemd_timestamp dp s3 = 0 := by
  refine ⟨rfl, rfl, ?_, ?_, ?_⟩
  · simp only [parse_systemd_timestamp]
    rw [if_neg (by simp [h1a, h1b]), if_pos h1len, h1dp]
  · simp only [parse_systemd_timestamp]
    rw [if_neg (by simp [h2a, h2b])]
    by_cases hl : (jsSplitChar s2 ' ').length ≥ 3
    · rw [if_pos hl, h2fail hl, h2dp]
    · rw [if_neg hl, h2dp]
  · simp only [parse_systemd_timestamp]
    rw [if_neg (by simp [h3a, h3b])]
    by_cases hl : (jsSplitChar s3 ' ').length ≥ 3
    · rw [if_pos hl, h3fail hl, h3dp]
    · rw [if_neg hl, h3dp]

/-- Witness for C8: a full weekday-prefixed timestamp is parsed from its
date and time tokens, a three-token string whose middle slice is not a
date falls back to whole-string parsing, and an unparsable string yields
zero. -/
theorem C8_witness :
    parse_systemd_timestamp exDateOracle "" = 0 ∧
    parse_systemd_timestamp exDateOracle "n/a" = 0 ∧
    parse_systemd_timestamp exDateOracle "Tue 2025-12-02 22:14:21 CET" = 1764717261000 ∧
    parse_systemd_timestamp exDateOracle "June 1 2020" = 1590969600000 ∧
    parse_systemd_timestamp exDateOracle "garbage" = 0 :=
  C8_timestamp_fallback exDateOracle "Tue 2025-12-02 22:14:21 CET" "June 1 2020" "garbage"
    1764717261000 1590969600000 (by decide) (by decide) (by decide) (by decide)
    (by decide) (by decide) (by decide) (by decide) (by decide) (by decide)
    (by decide) (by decide)

/-- C9: the per-resource status query always fulfills with a normalized
record (the model is a total function), and when the captured output has
no ActiveState property the state, label and symbol default to unknown,
unknown and the question mark; a missing Description defaults to the
resource identifier; with no parseable output at all the timestamp also
defaults to zero and the elapsed display to a dash. -/
theorem C9_defaulted_status (dp dp2 : String → Option Int) (now now2 : Int)
    (service service2 : String) (sp sp2 : Option String) (stdout : String)
    (hA : objGet (parse_systemctl_show stdout) "ActiveState" = none)
    (hD : objGet (parse_systemctl_show stdout) "Description" = none) :
    (get_service_status dp now service sp stdout).status = "unknown" ∧
    (get_service_status dp now service sp stdout).label = "unknown" ∧
    (get_service_status dp now service sp stdout).symbol = "?" ∧
    (get_service_status dp now service sp stdout).description = service ∧
    (get_service_status dp2 now2 service2 sp2 "").status = "unknown" ∧
    (get_service_status dp2 now2 service2 sp2 "").label = "unknown" ∧
    (get_service_status dp2 now2 service2 sp2 "").symbol = "?" ∧
    (get_service_status dp2 now2 service2 sp2 "").description = service2 ∧
    (get_service_status dp2 now2 service2 sp2 "").timestamp = 0 ∧
    (get_service_status dp2 now2 service2 sp2 "").elapsed = "-" := by
  refine ⟨?_, ?_, ?_, ?_, rfl, rfl, rfl, rfl, rfl, rfl⟩ <;>
    simp only [get_service_status, hA, hD, jsOrStr, STATUS_LABELS, STATUS_SYMBOLS,
      Option.getD_some] <;> rfl

/-- Witness for C9: a concrete empty capture for a named resource. -/
theorem C9_witness :
    (get_service_status exDateOracle 1000 "nginx.service" (some "ngi") "").status = "unknown" ∧
    (get_service_status exDateOracle 1000 "nginx.service" (some "ngi") "").label = "unknown" ∧
    (get_service_status exDateOracle 1000 "nginx.service" (some "ngi") "").symbol = "?" ∧
    (get_service_status exDateOracle 1000 "nginx.service" (some "ngi") "").description =
      "nginx.service" ∧
    (get_service_status exDateOracle 1000 "nginx.service" (some "ngi") "").status = "unknown" ∧
    (get_service_status exDateOracle 1000 "nginx.service" (some "ngi") "").label = "unknown" ∧
    (get_service_status exDateOracle 1000 "nginx.service" (some "ngi") "").symbol = "?" ∧
    (get_service_status exDateOracle 1000 "nginx.service" (some "ngi") "").description =
      "nginx.service" ∧
    (get_service_status exDateOracle 1000 "nginx.service" (some "ngi") "").timestamp = 0 ∧
    (get_service_status exDateOracle 1000 "nginx.service" (some "ngi") "").elapsed = "-" :=
  C9_defaulted_status exDateOracle exDateOracle 1000 1000 "nginx.service" "nginx.service"
    (some "ngi") (some "ngi") "" (by decide) (by decide)

/-- Helper for C7: a nonzero timestamp with a known non-negative floored
elapsed-seconds value goes through the unit formatter. -/
theorem format_elapsed_time_of_fdiv (ts now : Int) (s : Nat) (ha : ts ≠ 0)
    (he : Int.fdiv (now - ts) 1000 = (s : Int)) :
    format_elapsed_time ts now = format_elapsed_parts s := by
  rw [format_elapsed_time, if_neg ha]
  simp only [he]
  rw [if_neg (by omega)]
  simp

/-- C7 counterexample: a state-change timestamp in the future (negative
elapsed time) renders as a dash, not as the string unknown, refuting the
claim as stated. -/
theorem C7_counterexample :
    format_elapsed_time 2000 1000 = "-" ∧ format_elapsed_time 2000 1000 ≠ "unknown" := by
  constructor <;> decide

/-- C7 (amended): the elapsed display uses the single largest applicable
unit pair: days and hours when at least one day elapsed, else hours and
minutes, else minutes and seconds, else seconds alone; 90 seconds gives
1m 30s and 3 days 2 hours gives 3d 2h; a negative elapsed time renders
as the dash placeholder (the same marker used for an unknown timestamp)
rather than a negative value. -/
theorem C7_elapsed_formatting (ts0 now0 ts1 now1 ts2 now2 ts3 now3 ts4 now4 : Int)
    (s1 s2 s3 s4 : Nat)
    (h0a : ts0 ≠ 0) (h0b : now0 - ts0 < 0)
    (h1a : ts1 ≠ 0) (h1e : Int.fdiv (now1 - ts1) 1000 = (s1 : Int)) (h1r : 86400 ≤ s1)
    (h2a : ts2 ≠ 0) (h2e : Int.fdiv (now2 - ts2) 1000 = (s2 : Int))
    (h2r : s2 < 86400) (h2r2 : 3600 ≤ s2)
    (h3a : ts3 ≠ 0) (h3e : Int.fdiv (now3 - ts3) 1000 = (s3 : Int))
    (h3r : s3 < 3600) (h3r2 : 60 ≤ s3)
    (h4a : ts4 ≠ 0) (h4e : Int.fdiv (now4 - ts4) 1000 = (s4 : Int)) (h4r : s4 < 60) :
    format_elapsed_time ts0 now0 = "-" ∧
    format_elapsed_time ts1 now1 =
      natToString (s1 / 86400) ++ "d " ++ natToString (s1 % 86400 / 3600) ++ "h" ∧
    format_elapsed_time ts2 now2 =
      natToString (s2 / 3600) ++ "h " ++ natToString (s2 % 3600 / 60) ++ "m" ∧
    format_elapsed_time ts3 now3 =
      natToString (s3 / 60) ++ "m " ++ natToString (s3 % 60) ++ "s" ∧
    format_elapsed_time ts4 now4 = natToString s4 ++ "s" ∧
    format_elapsed_time 1000 91000 = "1m 30s" ∧
    format_elapsed_time 1000 266401000 = "3d 2h" := by
  refine ⟨?_, ?_, ?_, ?_, ?_, by decide, by decide⟩
  · rw [format_elapsed_time, if_neg h0a, if_pos (fdiv_neg_of_neg _ h0b)]
  · rw [format_elapsed_time_of_fdiv ts1 now1 s1 h1a h1e, format_elapsed_parts]
    rw [if_pos (by omega)]
  · rw [format_elapsed_time_of_fdiv ts2 now2 s2 h2a h2e, format_elapsed_parts]
    rw [if_neg (by omega), if_pos (by omega)]
    have hm : s2 % 86400 = s2 := Nat.mod_eq_of_lt h2r
    rw [hm]
  · rw [format_elapsed_time_of_fdiv ts3 now3 s3 h3a h3e, format_elapsed_parts]
    rw [if_neg (by omega), if_neg (by omega), if_pos (by omega)]
    have hm : s3 % 3600 = s3 := Nat.mod_eq_of_lt h3r
    rw [hm]
  · rw [format_elapsed_time_of_fdiv ts4 now4 s4 h4a h4e, format_elapsed_parts]
    rw [if_neg (by omega), if_neg (by omega), if_neg (by omega)]
    have hm : s4 % 60 = s4 := Nat.mod_eq_of_lt h4r
    rw [hm]

/-- Witness for C7: each branch of the unit selection at a concrete
timestamp pair, plus the future-timestamp dash. -/
theorem C7_witness :
    format_elapsed_time 2000 1000 = "-" ∧
    format_elapsed_time 1000 266401000 =
      natToString (266400 / 86400) ++ "d " ++ natToString (266400 % 86400 / 3600) ++ "h" ∧
    format_elapsed_time 1000 7201000 =
      natToString (7200 / 3600) ++ "h " ++ natToString (7200 % 3600 / 60) ++ "m" ∧
    format_elapsed_time 1000 91000 =
      natToString (90 / 60) ++ "m " ++ natToString (90 % 60) ++ "s" ∧
    format_elapsed_time 1000 6000 = natToString 5 ++ "s" ∧
    format_elapsed_time 1000 91000 = "1m 30s" ∧
    format_elapsed_time 1000 266401000 = "3d 2h" :=
  C7_elapsed_formatting 2000 1000 1000 266401000 1000 7201000 1000 91000 1000 6000
    266400 7200 90 5 (by decide) (by decide) (by decide) (by decide) (by decide)
    (by decide) (by decide) (by decide) (by decide) (by decide) (by decide)
    (by decide) (by decide) (by decide) (by decide) (by decide)

/-- C6: the aggregate summary token renders R slash T running with a
failed suffix appended exactly when the failed count is positive: for
the concrete 5-resource list with 3 active, 1 failed and 1 inactive the
summary is 3/5 running, 1 failed; and for every index i at least 10,
token i addresses resource (i-10)/5 at field (i-10) mod 5, where the
fields in order are display name, raw state, elapsed, label and symbol,
provided the resource index is in range. -/
theorem C6_aggregate_tokens (results : List ServiceStatus) (i : Nat) (r : ServiceStatus)
    (rs1 rs2 : List ServiceStatus)
    (h1 : 10 ≤ i) (h2 : results.get? ((i - 10) / 5) = some r)
    (h3 : (rs1.filter (fun x => x.status = "failed")).length = 0)
    (h4 : 0 < (rs2.filter (fun x => x.status = "failed")).length) :
    systemdResolveIdx ex5Services 8 = "3/5 running, 1 failed" ∧
    systemdResolveIdx results i =
      [r.display_name, r.status, r.elapsed, r.label, r.symbol].getD ((i - 10) % 5) "" ∧
    systemdResolveIdx rs1 8 =
      natToString (rs1.filter (fun x => x.status = "active")).length ++ "/" ++
        natToString rs1.length ++ " running" ∧
    systemdResolveIdx rs2 8 =
      natToString (rs2.filter (fun x => x.status = "active")).length ++ "/" ++
        natToString rs2.length ++ " running" ++ ", " ++
        natToString (rs2.filter (fun x => x.status = "failed")).length ++ " failed" := by
  refine ⟨by decide, ?_, ?_, ?_⟩
  · rw [systemdResolveIdx_high results i h1, h2]
    have h5 : (i - 10) % 5 = 0 ∨ (i - 10) % 5 = 1 ∨ (i - 10) % 5 = 2 ∨
        (i - 10) % 5 = 3 ∨ (i - 10) % 5 = 4 := by omega
    rcases h5 with h | h | h | h | h <;> simp [h]
  · simp only [systemdResolveIdx]
    norm_num
    intro hcon
    omega
  · simp only [systemdResolveIdx]
    norm_num
    intro hall
    exfalso
    have hnil : rs2.filter (fun x => x.status = "failed") = [] := by
      rw [List.filter_eq_nil]
      intro a ha
      simpa using hall a ha
    rw [hnil] at h4
    simp at h4

/-- Witness for C6: token 16 addresses resource 1 field 1 (raw state) of
the concrete 5-resource list, which has no failed suffix issue, and the
two summary shapes are realized by the all-active sublist and the
concrete list with one failure. -/
theorem C6_witness :
    systemdResolveIdx ex5Services 8 = "3/5 running, 1 failed" ∧
    systemdResolveIdx ex5Services 16 =
      [(mkStatusEx "b" "active" "running" "●").display_name,
       (mkStatusEx "b" "active" "running" "●").status,
       (mkStatusEx "b" "active" "running" "●").elapsed,
       (mkStatusEx "b" "active" "running" "●").label,
       (mkStatusEx "b" "active" "running" "●").symbol].getD ((16 - 10) % 5) "" ∧
    systemdResolveIdx [mkStatusEx "a" "active" "running" "●"] 8 =
      natToString ([mkStatusEx "a" "active" "running" "●"].filter
          (fun x => x.status = "active")).length ++ "/" ++
        natToString ([mkStatusEx "a" "active" "running" "●"]).length ++ " running" ∧
    systemdResolveIdx ex5Services 8 =
      natToString (ex5Services.filter (fun x => x.status = "active")).length ++ "/" ++
        natToString ex5Services.length ++ " running" ++ ", " ++
        natToString (ex5Services.filter (fun x => x.status = "failed")).length ++ " failed" :=
  C6_aggregate_tokens ex5Services 16 (mkStatusEx "b" "active" "running" "●")
    [mkStatusEx "a" "active" "running" "●"] ex5Services
    (by decide) (by decide) (by decide) (by decide)

/-- C3: the data source is fetched if and only if last_sampled is unset
(zero) or the monotonic elapsed time since last_sampled strictly exceeds
rate_ms; when a fetch happens last_sampled is set to the sampling time
(in the model, in the gate step that precedes applying the fetch
result); hence, starting from a never-sampled instance first sampled at
a nonzero time, a second call within rate_ms of the first fetch does not
fetch, and a call arriving strictly after rate_ms has elapsed fetches
again.  The gate characterization is stated for both sensors. -/
theorem C3_rate_gate (p : ExecPriv) (rate now0 now1 now2 : Nat) (fmt : String)
    (fault : Bool) (o : CmdOutcome) (sp : SystemdPriv) (fetch : List ServiceStatus)
    (q : ExecPriv) (nowq : Nat) (l n r : Nat)
    (h0 : p.last_sampled = 0) (hpos : 0 < now0)
    (h1 : (now1 : Int) - (now0 : Int) ≤ (rate : Int))
    (h2 : (now2 : Int) - (now0 : Int) > (rate : Int)) :
    (rate_gate l n r = true ↔ (l = 0 ∨ (n : Int) - (l : Int) > (r : Int))) ∧
    (exec_sample rate fmt q nowq fault o).fetched = rate_gate q.last_sampled nowq rate ∧
    (systemd_sample rate fmt sp nowq fetch).fetched = rate_gate sp.last_sampled nowq rate ∧
    (exec_sample rate fmt p now0 fault o).fetched = true ∧
    (exec_sample rate fmt p now0 fault o).priv.last_sampled = now0 ∧
    (exec_sample rate fmt (exec_sample rate fmt p now0 fault o).priv now1 fault o).fetched
      = false ∧
    (exec_sample rate fmt (exec_sample rate fmt p now0 fault o).priv now1 fault o).priv
      = (exec_sample rate fmt p now0 fault o).priv ∧
    (exec_sample rate fmt (exec_sample rate fmt p now0 fault o).priv now2 fault o).fetched
      = true := by
  have hg0 : rate_gate p.last_sampled now0 rate = true := by
    rw [rate_gate_iff]
    exact Or.inl h0
  have hls : (exec_sample rate fmt p now0 fault o).priv.last_sampled = now0 := by
    rw [exec_sample, if_pos hg0]
    exact (exec_apply_frame _ _).1
  have hg1 : rate_gate (exec_sample rate fmt p now0 fault o).priv.last_sampled now1 rate
      = false := by
    rw [hls, Bool.eq_false_iff]
    intro hg
    rw [rate_gate_iff] at hg
    rcases hg with hz | hgt
    · omega
    · omega
  have hg2 : rate_gate (exec_sample rate fmt p now0 fault o).priv.last_sampled now2 rate
      = true := by
    rw [hls, rate_gate_iff]
    right
    exact h2
  refine ⟨rate_gate_iff l n r, ?_, ?_, ?_, hls, ?_, ?_, ?_⟩
  · by_cases hgq : rate_gate q.last_sampled nowq rate <;> simp [exec_sample, hgq]
  · by_cases hgs : rate_gate sp.last_sampled nowq rate <;> simp [systemd_sample, hgs]
  · rw [exec_sample, if_pos hg0]
  · rw [exec_sample, if_neg (by rw [hg1]; exact Bool.false_ne_true)]
  · rw [exec_sample, if_neg (by rw [hg1]; exact Bool.false_ne_true)]
  · rw [exec_sample, if_pos hg2]

/-- Witness for C3: a fresh instance sampled at time 5 with rate 100, a
second call at time 80 reusing the cache, and a third call at 200
fetching again. -/
theorem C3_witness :
    (rate_gate 7 300 100 = true ↔ ((7 : Nat) = 0 ∨ (300 : Int) - (7 : Int) > (100 : Int))) ∧
    (exec_sample 100 "" exPrivRaw 80 false exErrOutcome).fetched =
      rate_gate exPrivRaw.last_sampled 80 100 ∧
    (systemd_sample 100 "" ⟨"d", [], none, [], 0⟩ 80 []).fetched =
      rate_gate (0 : Nat) 80 100 ∧
    (exec_sample 100 "" (exec_init_priv "w" "cmd" ';' 5000 false 100) 5 false
        exErrOutcome).fetched = true ∧
    (exec_sample 100 "" (exec_init_priv "w" "cmd" ';' 5000 false 100) 5 false
        exErrOutcome).priv.last_sampled = 5 ∧
    (exec_sample 100 ""
        (exec_sample 100 "" (exec_init_priv "w" "cmd" ';' 5000 false 100) 5 false
          exErrOutcome).priv 80 false exErrOutcome).fetched = false ∧
    (exec_sample 100 ""
        (exec_sample 100 "" (exec_init_priv "w" "cmd" ';' 5000 false 100) 5 false
          exErrOutcome).priv 80 false exErrOutcome).priv =
      (exec_sample 100 "" (exec_init_priv "w" "cmd" ';' 5000 false 100) 5 false
        exErrOutcome).priv ∧
    (exec_sample 100 ""
        (exec_sample 100 "" (exec_init_priv "w" "cmd" ';' 5000 false 100) 5 false
          exErrOutcome).priv 200 false exErrOutcome).fetched = true :=
  C3_rate_gate (exec_init_priv "w" "cmd" ';' 5000 false 100) 100 5 80 200 "" false
    exErrOutcome ⟨"d", [], none, [], 0⟩ [] exPrivRaw 80 7 300 100
    (by decide) (by decide) (by decide) (by decide)

/-- C1: cached parsed state is replaced only when the rate gate decided
to re-fetch and the fetch reported success.  When the gate fires but the
fetch fails after a prior success, the cached parsed state (headers,
rows, row count, raw lines, line count) is unchanged, every data token
(any key other than success and exit_code) renders exactly as in the
prior-success state, and only the fault indicators change: last_success
becomes false, the exit code is recorded, and the success token renders
false.  When the gate does not fire, the exec private state is returned
untouched; for the systemd sensor the status cache is untouched without
a re-fetch and replaced by the joined results (whose query always
fulfills) when the gate fires. -/
theorem C1_failure_retention (p : ExecPriv) (rate now now2 : Nat) (fmt : String)
    (fault : Bool) (code : Option Int) (out err msg : String) (key : String)
    (sp : SystemdPriv) (fetch : List ServiceStatus) (rate3 now3 now4 : Nat)
    (st : ExecSampleOut)
    (hst : exec_sample rate fmt p now fault (CmdOutcome.err code out err msg) = st)
    (hg : rate_gate p.last_sampled now rate = true)
    (hprev : p.last_success = true)
    (hk1 : key ≠ "success") (hk2 : key ≠ "exit_code")
    (hng : rate_gate p.last_sampled now2 rate = false)
    (hsg : rate_gate sp.last_sampled now3 rate3 = false)
    (hsg2 : rate_gate sp.last_sampled now4 rate3 = true) :
    st.priv.headers = p.headers ∧ st.priv.rows = p.rows ∧
    st.priv.row_count = p.row_count ∧ st.priv.raw_lines = p.raw_lines ∧
    st.priv.line_count = p.line_count ∧
    st.priv.last_success = false ∧ st.priv.exit_code = code.getD (-1) ∧
    execResolveCsv st.priv key = execResolveCsv p key ∧
    execResolveRaw st.priv key = execResolveRaw p key ∧
    execResolveCsv st.priv "success" = "false" ∧
    execResolveRaw st.priv "success" = "false" ∧
    (exec_sample rate fmt p now2 fault (CmdOutcome.err code out err msg)).priv = p ∧
    (systemd_sample rate3 fmt sp now3 fetch).priv = sp ∧
    (systemd_sample rate3 fmt sp now4 fetch).priv.status_cache = fetch := by
  have hpriv : st.priv =
      { p with last_sampled := now, exit_code := code.getD (-1), last_success := false } := by
    rw [← hst, exec_sample, if_pos hg]
    show exec_apply { p with last_sampled := now }
        (execute_command fault (CmdOutcome.err code out err msg)).result = _
    rw [execute_command]
    rw [exec_apply_fail _ _ rfl]
  refine ⟨by rw [hpriv], by rw [hpriv], by rw [hpriv], by rw [hpriv], by rw [hpriv],
    by rw [hpriv], by rw [hpriv], ?_, ?_, ?_, ?_, ?_, ?_, ?_⟩
  · exact execResolveCsv_congr p st.priv (by rw [hpriv]) (by rw [hpriv]) (by rw [hpriv])
      (by rw [hpriv]) key hk1 hk2
  · exact execResolveRaw_congr p st.priv (by rw [hpriv]) (by rw [hpriv]) key hk1 hk2
  · rw [hpriv, execResolveCsv, if_pos rfl]
    simp
  · rw [hpriv, execResolveRaw, if_pos rfl]
    simp
  · rw [exec_sample, if_neg (by rw [hng]; exact Bool.false_ne_true)]
  · rw [systemd_sample, if_neg (by rw [hsg]; exact Bool.false_ne_true)]
  · rw [systemd_sample, if_pos hsg2]

/-- Witness for C1: the one-row csv state with a prior success, gated at
time 200 with rate 100 and a failing command, rendered at the data token
rows; the no-refetch calls happen at time 6. -/
theorem C1_witness :
    (exec_sample 100 "" exPrivCsv 200 false (CmdOutcome.err (some 2) "" "boom" "m")).priv.headers
        = exPrivCsv.headers ∧
    (exec_sample 100 "" exPrivCsv 200 false (CmdOutcome.err (some 2) "" "boom" "m")).priv.rows
        = exPrivCsv.rows ∧
    (exec_sample 100 "" exPrivCsv 200 false
        (CmdOutcome.err (some 2) "" "boom" "m")).priv.row_count = exPrivCsv.row_count ∧
    (exec_sample 100 "" exPrivCsv 200 false
        (CmdOutcome.err (some 2) "" "boom" "m")).priv.raw_lines = exPrivCsv.raw_lines ∧
    (exec_sample 100 "" exPrivCsv 200 false
        (CmdOutcome.err (some 2) "" "boom" "m")).priv.line_count = exPrivCsv.line_count ∧
    (exec_sample 100 "" exPrivCsv 200 false
        (CmdOutcome.err (some 2) "" "boom" "m")).priv.last_success = false ∧
    (exec_sample 100 "" exPrivCsv 200 false
        (CmdOutcome.err (some 2) "" "boom" "m")).priv.exit_code = (some 2).getD (-1) ∧
    execResolveCsv (exec_sample 100 "" exPrivCsv 200 false
        (CmdOutcome.err (some 2) "" "boom" "m")).priv "rows" = execResolveCsv exPrivCsv "rows" ∧
    execResolveRaw (exec_sample 100 "" exPrivCsv 200 false
        (CmdOutcome.err (some 2) "" "boom" "m")).priv "rows" = execResolveRaw exPrivCsv "rows" ∧
    execResolveCsv (exec_sample 100 "" exPrivCsv 200 false
        (CmdOutcome.err (some 2) "" "boom" "m")).priv "success" = "false" ∧
    execResolveRaw (exec_sample 100 "" exPrivCsv 200 false
        (CmdOutcome.err (some 2) "" "boom" "m")).priv "success" = "false" ∧
    (exec_sample 100 "" exPrivCsv 6 false (CmdOutcome.err (some 2) "" "boom" "m")).priv
        = exPrivCsv ∧
    (systemd_sample 100 "" ⟨"d", ["a"], none, ex5Services, 5⟩ 6 []).priv
        = ⟨"d", ["a"], none, ex5Services, 5⟩ ∧
    (systemd_sample 100 "" ⟨"d", ["a"], none, ex5Services, 5⟩ 200 []).priv.status_cache = [] :=
  C1_failure_retention exPrivCsv 100 200 6 "" false (some 2) "" "boom" "m" "rows"
    ⟨"d", ["a"], none, ex5Services, 5⟩ [] 100 6 200
    (exec_sample 100 "" exPrivCsv 200 false (CmdOutcome.err (some 2) "" "boom" "m")) rfl
    (by decide) (by decide) (by decide) (by decide) (by decide) (by decide) (by decide)

/-- C2 counterexample: in the aggregate grammar, the out-of-range token
15 against a single-resource state renders the string undefined, not the
empty string, refuting the claim that all three grammars replace
unmatched tokens by the empty string. -/
theorem C2_counterexample :
    systemd_render [mkStatusEx "a" "active" "running" "●"] "\x7b15\x7d" = "undefined" ∧
    systemd_render [mkStatusEx "a" "active" "running" "●"] "\x7b15\x7d" ≠ "" := by
  constructor <;> decide

/-- C2 (amended): in the tabular and line-oriented grammars, a token
body that matches no keyword and is not a numeric index, or whose
numeric index is out of range (such as 15 with fewer rows), is replaced
by the empty string; surrounding literal text is unchanged and rendering
is a total function.  In the aggregate grammar, however, the digit-only
token pattern leaves non-numeric bodies as literal text and an unmatched
numeric index (9, or a resource index beyond the resource list) renders
as the string undefined. -/
theorem C2_token_resolution (p q p5 : ExecPriv) (key1 key2 key3 key4 : String)
    (n1 n3 : Nat) (results rs : List ServiceStatus) (j : Nat)
    (pre body post : List Char)
    (h1d : '.' ∉ key1.toList) (h1p : jsParseInt key1 = some n1) (h1r : p.row_count ≤ n1)
    (h2k : key2 ∉ ["success", "exit_code", "columns", "rows", "headers", "json"])
    (h2d : '.' ∉ key2.toList) (h2p : jsParseInt key2 = none)
    (h3p : jsParseInt key3 = some n3) (h3r : q.line_count ≤ n3)
    (h4k : key4 ∉ ["success", "exit_code", "lines", "all", "json"])
    (h4p : jsParseInt key4 = none)
    (hj : 10 ≤ j) (hjr : results.length ≤ (j - 10) / 5)
    (hcsv : p5.csv = true) (hpre : ∀ c ∈ pre, c ≠ lbrace)
    (hpost : ∀ c ∈ post, c ≠ lbrace) (hb : body ≠ [])
    (hbody : ∀ c ∈ body, csvBodyChar c = true) :
    execResolveCsv p key1 = "" ∧
    execResolveCsv p key2 = "" ∧
    execResolveRaw q key3 = "" ∧
    execResolveRaw q key4 = "" ∧
    systemdResolveIdx results j = "undefined" ∧
    systemdResolveIdx rs 9 = "undefined" ∧
    exec_render p5 (String.mk (pre ++ lbrace :: (body ++ rbrace :: post))) =
      String.mk (pre ++ (execResolveCsv p5 (String.mk body)).toList ++ post) := by
  simp only [List.mem_cons, List.not_mem_nil, or_false, not_or] at h2k h4k
  obtain ⟨h2a, h2b, h2c, h2e, h2f, h2g⟩ := h2k
  obtain ⟨h4a, h4b, h4c, h4e, h4f⟩ := h4k
  refine ⟨?_, ?_, ?_, ?_, ?_, ?_, ?_⟩
  · rw [execResolveCsv_numeric p key1 n1 h1d h1p, if_neg (by omega)]
  · exact execResolveCsv_unresolved p key2 h2a h2b h2c h2e h2f h2g h2d h2p
  · rw [execResolveRaw_numeric q key3 n3 h3p, if_neg (by omega)]
  · exact execResolveRaw_unresolved q key4 h4a h4b h4c h4e h4f h4p
  · rw [systemdResolveIdx_high results j hj, List.get?_eq_none.mpr hjr]
  · simp [systemdResolveIdx]
  · rw [exec_render, if_pos hcsv, jsReplace]
    have htl : (String.mk (pre ++ lbrace :: (body ++ rbrace :: post))).toList =
        pre ++ lbrace :: (body ++ rbrace :: post) := rfl
    rw [htl, replaceTokens_splice csvBodyChar (execResolveCsv p5) (by decide) pre body post
        hpre hb hbody, replaceTokens_no_lbrace csvBodyChar (execResolveCsv p5) post hpost]

/-- Witness for C2: out-of-range row token 15 and unknown body zz on a
one-row table, the same bodies in the line grammar on a three-line
cache, aggregate index 40 against five resources and index 9, and a full
render of the format x=\x7b15\x7dy showing the literals preserved and
the unresolved token replaced by the empty string. -/
theorem C2_witness :
    execResolveCsv exPrivCsv "15" = "" ∧
    execResolveCsv exPrivCsv "zz" = "" ∧
    execResolveRaw exPrivRaw "15" = "" ∧
    execResolveRaw exPrivRaw "zz" = "" ∧
    systemdResolveIdx ex5Services 40 = "undefined" ∧
    systemdResolveIdx ex5Services 9 = "undefined" ∧
    exec_render exPrivCsv
        (String.mk (['x', '='] ++ lbrace :: (['1', '5'] ++ rbrace :: ['y']))) =
      String.mk (['x', '='] ++ (execResolveCsv exPrivCsv (String.mk ['1', '5'])).toList ++
        ['y']) :=
  C2_token_resolution exPrivCsv exPrivRaw exPrivCsv "15" "zz" "15" "zz" 15 15
    ex5Services ex5Services 40 ['x', '='] ['1', '5'] ['y']
    (by decide) (by decide) (by decide) (by decide) (by decide) (by decide)
    (by decide) (by decide) (by decide) (by decide) (by decide) (by decide)
    (by decide) (by decide) (by decide) (by decide) (by decide)

/-- C4 counterexample: the failure-logging fault flag is module-level
state shared by all exec instances.  With two freshly initialized
instances, instance 1 logs its first failure when sampled on a fresh
module, but does not log it when instance 0 failed first: sampling one
instance changes the observable behaviour of the other, refuting the
claim that no state whatsoever is shared between instances. -/
theorem C4_counterexample :
    (exec_module_sample ⟨false, [exec_init_priv "a" "cmda" ';' 5000 true 100,
        exec_init_priv "b" "cmdb" ';' 5000 true 100]⟩ 1 100 50 "" exErrOutcome).logged
      = true ∧
    (exec_module_sample
        ((exec_module_sample ⟨false, [exec_init_priv "a" "cmda" ';' 5000 true 100,
            exec_init_priv "b" "cmdb" ';' 5000 true 100]⟩ 0 100 50 "" exErrOutcome).modl)
        1 100 60 "" exErrOutcome).logged = false := by
  constructor <;> rfl

/-- C4 (amended): sampling one instance of the exec module leaves every
other instance's private state (cache, rate-gate timestamp, success and
exit-code indicators) unchanged; but the fault flag used for
edge-triggered failure logging is a single module-level variable updated
by whichever instance sampled, so the fault indicator is shared between
instances rather than per-instance. -/
theorem C4_instance_isolation (m : ExecModule) (i j rate now : Nat) (fmt : String)
    (o : CmdOutcome) (h : i ≠ j) :
    (exec_module_sample m i rate now fmt o).modl.instances.get? j = m.instances.get? j ∧
    (exec_module_sample m i rate now fmt o).modl.fault =
      (match m.instances.get? i with
       | none => m.fault
       | some p => (exec_sample rate fmt p now m.fault o).fault) := by
  rw [exec_module_sample]
  cases hmi : m.instances.get? i with
  | none => exact ⟨rfl, rfl⟩
  | some p =>
    constructor
    · exact List.get?_set_ne _ _ h
    · rfl

/-- Witness for C4: instance 0 samples on a two-instance module;
instance 1 keeps its state, while the shared flag takes the value the
sampling of instance 0 produced. -/
theorem C4_witness :
    (exec_module_sample ⟨false, [exec_init_priv "a" "cmda" ';' 5000 true 100,
        exec_init_priv "b" "cmdb" ';' 5000 true 100]⟩ 0 100 50 ""
        exErrOutcome).modl.instances.get? 1 =
      ([exec_init_priv "a" "cmda" ';' 5000 true 100,
        exec_init_priv "b" "cmdb" ';' 5000 true 100] :
          List ExecPriv).get? 1 ∧
    (exec_module_sample ⟨false, [exec_init_priv "a" "cmda" ';' 5000 true 100,
        exec_init_priv "b" "cmdb" ';' 5000 true 100]⟩ 0 100 50 ""
        exErrOutcome).modl.fault =
      (match ([exec_init_priv "a" "cmda" ';' 5000 true 100,
          exec_init_priv "b" "cmdb" ';' 5000 true 100] :
            List ExecPriv).get? 0 with
       | none => false
       | some p => (exec_sample 100 "" p 50 false exErrOutcome).fault) :=
  C4_instance_isolation ⟨false, [exec_init_priv "a" "cmda" ';' 5000 true 100,
      exec_init_priv "b" "cmdb" ';' 5000 true 100]⟩ 0 1 100 50 "" exErrOutcome
    (by decide)
